import Mathlib

/-!
# Verification of the prysm beacon-chain consensus core

A shallow embedding of the block-reception pipeline (`ChainService.ReceiveBlock`),
the fork-choice store (`forkchoice.Store`: `GensisStore`, `Ancestor`,
`LatestAttestingBalance`, `Head`, `OnTick`, `OnBlock`, `OnAttestation`) and the
canonical-roots index (`ChainService.UpdateCanonicalRoots` / `IsCanonical`)
from `beacon-chain/blockchain` (`block_processing.go`, `fork_choice.go`,
`service.go`), together with theorems settling the specification claims.

Conventions of the embedding:
* 32-byte roots are modelled as `Nat`; the empty / nil byte slice maps to `0`
  (as `bytesutil.ToBytes32` pads with zeroes).
* The SSZ hash functions (`ssz.SigningRoot`, `ssz.HashTreeRoot`) are modelled
  symbolically as injective encodings of the hashed fields with pairwise
  distinct tags (collisions are assumed away, as the source's content
  addressing does).
* The `db.BeaconDB` package is not part of the analysed sources; its
  operations are modelled from the specification of the Chain Store
  (association lists keyed by root, upsert semantics, evil-block deny-list).
* Go's mutable store is passed explicitly; a Go `nil`-pointer dereference on
  a missing lookup is embedded as an error result.
-/

namespace Prysm

/-- A 32-byte hash root, modelled as a natural number.  `0` is the zero root
(the image of the empty byte slice under `bytesutil.ToBytes32`). -/
abbrev Root := Nat

/-- `Checkpoint { epoch, root }` from `proto/beacon/p2p/v1`. -/
structure Checkpoint where
  epoch : Nat
  root : Root
deriving DecidableEq

/-- A validator registry entry; only the fields read by the fork-choice code
(`EffectiveBalance`, activation and exit epochs for
`helpers.ActiveValidatorIndices`) are kept. -/
structure Validator where
  effectiveBalance : Nat
  activationEpoch : Nat
  exitEpoch : Nat
deriving DecidableEq

/-- `pb.BeaconState`, restricted to the fields the analysed code reads:
`GenesisTime`, `Slot`, `CurrentJustifiedCheckpoint`, `FinalizedCheckpoint`,
`Validators`.  `restTag` abstracts every remaining field so that distinct
states hash to distinct roots. -/
structure BeaconState where
  genesisTime : Nat
  slot : Nat
  currentJustifiedCheckpoint : Checkpoint
  finalizedCheckpoint : Checkpoint
  validators : List Validator
  restTag : Nat
deriving DecidableEq

/-- `BeaconBlock`, restricted to the fields the analysed code reads:
`Slot`, `ParentRoot`, `StateRoot`.  `bodyTag` abstracts the block body and
`sigTag` the proposer signature (the one field excluded from the signing
root). -/
structure BeaconBlock where
  slot : Nat
  parentRoot : Root
  stateRoot : Root
  bodyTag : Nat
  sigTag : Nat
deriving DecidableEq

/-- `pb.LatestMessage { epoch, root }`. -/
structure LatestMessage where
  epoch : Nat
  root : Root
deriving DecidableEq

/-- `pb.AttestationTarget { slot, beacon_block_root, parent_root }`. -/
structure AttestationTarget where
  slot : Nat
  beaconBlockRoot : Root
  parentRoot : Root
deriving DecidableEq

/-- Symbolic `ssz.SigningRoot` of a block: an injective encoding of the
signed fields (everything except the signature), tagged `1`. -/
def sszSigningRoot (b : BeaconBlock) : Root :=
  Nat.pair 1 (Nat.pair b.slot (Nat.pair b.parentRoot (Nat.pair b.stateRoot b.bodyTag)))

/-- Symbolic `ssz.HashTreeRoot` of a block: an injective encoding of all
fields, the signature included, tagged `2`.  By construction it never
coincides with `sszSigningRoot` (distinct hash functions are collision-free
in the symbolic model). -/
def sszHashTreeRootBlock (b : BeaconBlock) : Root :=
  Nat.pair 2 (Nat.pair b.slot (Nat.pair b.parentRoot (Nat.pair b.stateRoot (Nat.pair b.bodyTag b.sigTag))))

/-- Injective encoding of a validator list, used by the symbolic state hash. -/
def encodeValidators : List Validator → Nat
  | [] => 0
  | v :: vs =>
      Nat.pair (Nat.pair v.effectiveBalance (Nat.pair v.activationEpoch v.exitEpoch) + 1)
        (encodeValidators vs)

/-- Symbolic `ssz.HashTreeRoot` of a state: an injective encoding of the
modelled fields, tagged `3`. -/
def sszHashTreeRootState (s : BeaconState) : Root :=
  Nat.pair 3 (Nat.pair s.genesisTime (Nat.pair s.slot
    (Nat.pair (Nat.pair s.currentJustifiedCheckpoint.epoch s.currentJustifiedCheckpoint.root)
      (Nat.pair (Nat.pair s.finalizedCheckpoint.epoch s.finalizedCheckpoint.root)
        (Nat.pair (encodeValidators s.validators) s.restTag)))))

/-- Modelled from the spec: `SLOTS_PER_EPOCH` from the params package (not in
the analysed sources). -/
def slotsPerEpoch : Nat := 64

/-- Modelled from the spec: `SECONDS_PER_SLOT` from the params package (not in
the analysed sources). -/
def secondsPerSlot : Nat := 6

/-- Modelled from the spec: `helpers.StartSlot` (`compute_start_slot_of_epoch`),
the first slot of an epoch. -/
def startSlot (epoch : Nat) : Nat := epoch * slotsPerEpoch

/-- Modelled from the spec: `helpers.CurrentEpoch`, the epoch of the state's
current slot. -/
def currentEpoch (s : BeaconState) : Nat := s.slot / slotsPerEpoch

/-- Modelled from the spec: a validator is active in `epoch` when
`activation_epoch ≤ epoch < exit_epoch`. -/
def isActiveValidator (v : Validator) (epoch : Nat) : Bool :=
  v.activationEpoch ≤ epoch && epoch < v.exitEpoch

/-- Modelled from the spec: `helpers.ActiveValidatorIndices`, the indices of
the validators active in `epoch`, in registry order. -/
def activeValidatorIndices (s : BeaconState) (epoch : Nat) : List Nat :=
  (List.range s.validators.length).filter fun i =>
    isActiveValidator (s.validators.getD i ⟨0, 0, 0⟩) epoch

/-- Modelled from the spec: the Chain Store (`db.BeaconDB`), whose sources are
outside the analysed subset.  Association lists model the keyed namespaces of
§6: `block/{root}` keyed by signing root, `latest_msg/{validator_idx}`,
`checkpoint_state/{epoch,root}`, historical states keyed by `(slot, root)`,
`attestation_target/{root}`, saved full states, and the `evil/{root}`
deny-list. -/
structure BeaconDB where
  blocks : List (Root × BeaconBlock)
  latestMessages : List (Nat × LatestMessage)
  checkpointStates : List (Checkpoint × BeaconState)
  histStates : List ((Nat × Root) × BeaconState)
  attTargets : List (Root × AttestationTarget)
  states : List (Root × BeaconState)
  evil : List Root
deriving DecidableEq

/-- Upsert into an association list: overwrite the first binding of the key,
or append a fresh one. -/
def upsert {α β : Type} [DecidableEq α] (k : α) (v : β) : List (α × β) → List (α × β)
  | [] => [(k, v)]
  | (k', v') :: rest => if k' = k then (k, v) :: rest else (k', v') :: upsert k v rest

/-- Lookup in an association list. -/
def alookup {α β : Type} [DecidableEq α] (k : α) : List (α × β) → Option β
  | [] => none
  | (k', v') :: rest => if k' = k then some v' else alookup k rest

namespace BeaconDB

/-- Modelled from the spec: `block(root) → block | absent`; a missing key is
not an error. -/
def block (db : BeaconDB) (root : Root) : Option BeaconBlock :=
  alookup root db.blocks

/-- Modelled from the spec: `has_block(root)`. -/
def hasBlock (db : BeaconDB) (root : Root) : Bool :=
  (db.block root).isSome

/-- Modelled from the spec: `mark_evil_block_hash(root)` adds the root to the
evil-block deny-list. -/
def markEvilBlockHash (db : BeaconDB) (root : Root) : BeaconDB :=
  { db with evil := root :: db.evil }

/-- Modelled from the spec: `save_block(block)` upserts by signing root and
fails `Blacklisted` when the root is on the evil deny-list. -/
def saveBlock (db : BeaconDB) (b : BeaconBlock) : Except String BeaconDB :=
  let root := sszSigningRoot b
  if db.evil.contains root then .error "blacklisted"
  else .ok { db with blocks := upsert root b db.blocks }

/-- Modelled from the spec: `delete_block(block)` evicts the block from cache
and DB. -/
def deleteBlock (db : BeaconDB) (b : BeaconBlock) : BeaconDB :=
  { db with blocks := db.blocks.filter fun p => p.1 ≠ sszSigningRoot b }

/-- Modelled from the spec: `latest_message(i)`; a missing key is absent, not
an error. -/
def latestMessage (db : BeaconDB) (i : Nat) : Option LatestMessage :=
  alookup i db.latestMessages

/-- Modelled from the spec: `has_latest_message(i)`. -/
def hasLatestMessage (db : BeaconDB) (i : Nat) : Bool :=
  (db.latestMessage i).isSome

/-- Modelled from the spec: `save_latest_message(i, msg)` overwrites in
place. -/
def saveLatestMessage (db : BeaconDB) (i : Nat) (msg : LatestMessage) : BeaconDB :=
  { db with latestMessages := upsert i msg db.latestMessages }

/-- Modelled from the spec: `checkpoint_state(checkpoint)`. -/
def checkpointState (db : BeaconDB) (c : Checkpoint) : Option BeaconState :=
  alookup c db.checkpointStates

/-- Modelled from the spec: `has_checkpoint(checkpoint)`. -/
def hasCheckpoint (db : BeaconDB) (c : Checkpoint) : Bool :=
  (db.checkpointState c).isSome

/-- Modelled from the spec: `save_checkpoint_state(checkpoint, state)`. -/
def saveCheckpointState (db : BeaconDB) (c : Checkpoint) (s : BeaconState) : BeaconDB :=
  { db with checkpointStates := upsert c s db.checkpointStates }

/-- Modelled from the spec: `historical_state_from_slot(slot, block_root)`
reconstructs the pre-state for a block; modelled as a keyed lookup. -/
def historicalStateFromSlot (db : BeaconDB) (slot : Nat) (root : Root) : Option BeaconState :=
  alookup (slot, root) db.histStates

/-- Modelled from the spec: `save_attestation_target(target)`. -/
def saveAttestationTarget (db : BeaconDB) (t : AttestationTarget) : BeaconDB :=
  { db with attTargets := upsert t.beaconBlockRoot t db.attTargets }

/-- Modelled from the spec: `save_state(state)`, keyed by the state's
tree-hash root (the source's `SaveState` keying; cf. the `OnBlock` TODO that
the fork-choice spec expects block-root keying). -/
def saveState (db : BeaconDB) (s : BeaconState) : BeaconDB :=
  { db with states := upsert (sszHashTreeRootState s) s db.states }

/-- Modelled from the spec: `save_historical_state(state, block_root)` inside
`AdvanceState`, keyed by `(state.slot, block_root)`. -/
def saveHistoricalState (db : BeaconDB) (s : BeaconState) (root : Root) : BeaconDB :=
  { db with histStates := upsert (s.slot, root) s db.histStates }

end BeaconDB

/-- The fork-choice `Store` (`fork_choice.go`): wall time, justified and
finalized checkpoints, and the Chain Store reference. -/
structure Store where
  time : Nat
  justifiedCheckpt : Checkpoint
  finalizedCheckpt : Checkpoint
  db : BeaconDB
deriving DecidableEq

/-- `Store.GensisStore` (`fork_choice.go` 389-421): hashes the genesis state,
builds the genesis block from it, seeds `time` and both checkpoints, then
persists block, state, and both checkpoint states.  The source computes the
checkpoint root with `ssz.HashTreeRoot(genesisBlk)` — not `ssz.SigningRoot`
as its own pseudocode (`root = signing_root(genesis_block)`) prescribes. -/
def Store.GensisStore (s : Store) (state : BeaconState) : Except String Store :=
  let stateRoot := sszHashTreeRootState state
  let genesisBlk : BeaconBlock :=
    { slot := 0, parentRoot := 0, stateRoot := stateRoot, bodyTag := 0, sigTag := 0 }
  let blkRoot := sszHashTreeRootBlock genesisBlk
  let s1 : Store := { s with
    time := state.genesisTime
    justifiedCheckpt := ⟨0, blkRoot⟩
    finalizedCheckpt := ⟨0, blkRoot⟩ }
  match s1.db.saveBlock genesisBlk with
  | .error e => .error e
  | .ok db1 =>
    let db2 := db1.saveState state
    let db3 := db2.saveCheckpointState s1.justifiedCheckpt state
    let db4 := db3.saveCheckpointState s1.finalizedCheckpt state
    .ok { s1 with db := db4 }

/-- Error outcomes of `Store.Ancestor`. -/
inductive AncErr where
  /-- The root's block is absent: the source dereferences the `nil` block. -/
  | missing
  /-- `b.Slot < slot`: "ancestor slot reacched below wanted slot". -/
  | slotUnderflow
deriving DecidableEq

/-- `Store.Ancestor` (`fork_choice.go` 430-445), with explicit recursion fuel
(`none` = fuel exhausted): look up the block at `root`; fail when its slot is
below `slot`; return `root` when equal; otherwise recurse on the parent
root. -/
def ancestorFuel (db : BeaconDB) : Nat → Root → Nat → Option (Except AncErr Root)
  | 0, _, _ => none
  | fuel+1, root, slot =>
    match db.block root with
    | none => some (.error .missing)
    | some b =>
      if b.slot < slot then some (.error .slotUnderflow)
      else if b.slot = slot then some (.ok root)
      else ancestorFuel db fuel b.parentRoot slot

/-- `Store.Ancestor` on a store, delegating to `ancestorFuel` over its DB. -/
def Store.Ancestor (s : Store) (fuel : Nat) (root : Root) (slot : Nat) :
    Option (Except AncErr Root) :=
  ancestorFuel s.db fuel root slot

/-- `Store.LatestAttestingBalance` (`fork_choice.go` 458-491): over the active
indices of the justified-checkpoint state, sum the effective balance of every
validator whose latest-message root has the wanted block as its ancestor at
the wanted block's slot. -/
def Store.LatestAttestingBalance (s : Store) (fuel : Nat) (root : Root) :
    Except String Nat :=
  match s.db.checkpointState s.justifiedCheckpt with
  | none => .error "could not get checkpoint state"
  | some lastJustifiedState =>
    let lastJustifiedEpoch := currentEpoch lastJustifiedState
    let activeIndices := activeValidatorIndices lastJustifiedState lastJustifiedEpoch
    match s.db.block root with
    | none => .error "could not get slot for an ancestor block"
    | some wantedBlk =>
      activeIndices.foldlM (fun balances i =>
        if s.db.hasLatestMessage i then
          match s.db.latestMessage i with
          | none => Except.error "could not get latest msg"
          | some msg =>
            match ancestorFuel s.db fuel msg.root wantedBlk.slot with
            | none => Except.error "fuel exhausted"
            | some (.error _) => Except.error "could not get ancestor root"
            | some (.ok wantedRoot) =>
              Except.ok (if wantedRoot = root
                then balances + (lastJustifiedState.validators.getD i ⟨0, 0, 0⟩).effectiveBalance
                else balances)
        else Except.ok balances) 0

/-- One round of the `for {}` loop in `Store.Head` (`fork_choice.go` 513-546),
iterated on fuel.  Faithful to the source's placeholder state:
`children := [][]byte{{}}` and `roots := [][]byte{{}}` both start as the
one-element list holding the empty byte slice (root `0` after
`bytesutil.ToBytes32`); the child scan walks `roots`, not the stored blocks;
and the source's inner `head := children[0]` shadows the loop variable, so
the outer `head` is unchanged when the loop repeats. -/
def Store.HeadLoop (s : Store) (justifiedSlot : Nat) : Nat → Root → Except String Root
  | 0, _ => .error "fuel exhausted"
  | fuel+1, head =>
    let roots : List Root := [0]
    match (roots.foldlM (fun children r =>
        match s.db.block r with
        | none => Except.error "could not get block"
        | some b =>
          Except.ok (if b.parentRoot = head ∧ justifiedSlot < b.slot
            then children ++ [r] else children))
      ([0] : List Root) : Except String (List Root)) with
    | .error e => .error e
    | .ok children =>
      if children.isEmpty then .ok head
      else
        match s.LatestAttestingBalance fuel (children.headD 0) with
        | .error e => .error e
        | .ok highest =>
          match children.drop 1 |>.foldlM (fun innerHead child =>
              match s.LatestAttestingBalance fuel child with
              | .error e => Except.error e
              | .ok balance =>
                Except.ok (if highest < balance then child else innerHead))
            (children.headD 0) with
          | .error e => .error e
          | .ok _ => Store.HeadLoop s justifiedSlot fuel head

/-- `Store.Head` (`fork_choice.go` 509-547): start the LMD-GHOST descent at
the justified checkpoint root with the justified epoch's start slot. -/
def Store.Head (s : Store) (fuel : Nat) : Except String Root :=
  Store.HeadLoop s (startSlot s.justifiedCheckpt.epoch) fuel s.justifiedCheckpt.root

/-- `Store.OnTick` (`fork_choice.go` 554-556): `s.time = t`. -/
def Store.OnTick (s : Store) (t : Nat) : Store :=
  { s with time := t }

/-- The checkpoint-update tail of `Store.OnBlock` (`fork_choice.go` 645-653):
the source assigns only the `Epoch` field of each checkpoint
(`s.justifiedCheckpt.Epoch = postState.CurrentJustifiedCheckpoint.Epoch`),
leaving the stored `Root` untouched. -/
def Store.OnBlockUpdateCheckpoints (s : Store) (postState : BeaconState) : Store :=
  let s1 :=
    if s.justifiedCheckpt.epoch < postState.currentJustifiedCheckpoint.epoch then
      { s with justifiedCheckpt :=
          { epoch := postState.currentJustifiedCheckpoint.epoch
            root := s.justifiedCheckpt.root } }
    else s
  if s1.finalizedCheckpt.epoch < postState.finalizedCheckpoint.epoch then
    { s1 with finalizedCheckpt :=
        { epoch := postState.finalizedCheckpoint.epoch
          root := s1.finalizedCheckpt.root } }
  else s1

/-- `Store.OnBlock` (`fork_choice.go` 588-656): load the pre-state, reject
future blocks, save the block, require descent from the finalized root (the
source ignores the `Ancestor` error, so an `Ancestor` failure falls through
to the inequality), require the slot past the finalized epoch's start slot,
run the state transition (`state.ExecuteStateTransition`, external to the
analysed sources, passed as `transition`), save the post-state, then update
the checkpoints via `Store.OnBlockUpdateCheckpoints`. -/
def Store.OnBlock (s : Store) (transition : BeaconState → BeaconBlock → Except Unit BeaconState)
    (fuel : Nat) (b : BeaconBlock) : Except String Store :=
  match s.db.historicalStateFromSlot b.slot b.parentRoot with
  | none => .error "pre state does not exist"
  | some preState =>
    let slotTime := preState.genesisTime + b.slot * secondsPerSlot
    if s.time < slotTime then .error "could not process block from the future"
    else
      match s.db.saveBlock b with
      | .error e => .error e
      | .ok db1 =>
        match db1.block s.finalizedCheckpt.root with
        | none => .error "could not get finalized block"
        | some finalizedBlk =>
          let root := sszSigningRoot b
          let bFinalizedRoot : Option Root :=
            match ancestorFuel db1 fuel root finalizedBlk.slot with
            | some (.ok r) => some r
            | _ => none
          if bFinalizedRoot ≠ some s.finalizedCheckpt.root then
            .error "block is not a descendent of the current finalized block"
          else if b.slot ≤ startSlot s.finalizedCheckpt.epoch then
            .error "block is equal or earlier than finalized block"
          else
            match transition preState b with
            | .error _ => .error "could not execute state transition"
            | .ok postState =>
              let s1 : Store := { s with db := db1.saveState postState }
              .ok (Store.OnBlockUpdateCheckpoints s1 postState)

/-- The latest-message update loop of `Store.OnAttestation`
(`fork_choice.go` 748-763), over the custody-bit indices of the indexed
attestation (which the source stubs as the empty `pb.IndexedAttestation{}`).
The source first calls `HasLatestMessage(i)` and discards the result, then
`LatestMessage(i)` — a missing message is embedded as that call's error
path — and its overwrite guard is
`s.db.HasLatestMessage(i) || tgt.Epoch > msg.Epoch`: presence alone already
triggers the overwrite. -/
def Store.OnAttUpdateLatestMessages (db : BeaconDB) (tgtEpoch : Nat)
    (beaconBlockRoot : Root) (indices : List Nat) : Except String BeaconDB :=
  indices.foldlM (fun db i =>
    match db.latestMessage i with
    | none => Except.error "could not get latest msg"
    | some msg =>
      Except.ok (if db.hasLatestMessage i ∨ msg.epoch < tgtEpoch
        then db.saveLatestMessage i ⟨tgtEpoch, beaconBlockRoot⟩
        else db)) db

/-- `AttestationData`, restricted to the fields `OnAttestation` reads:
`BeaconBlockRoot` and `Target`; `restTag` abstracts the remaining fields
(source checkpoint, crosslink, committee index). -/
structure AttestationData where
  beaconBlockRoot : Root
  target : Checkpoint
  restTag : Nat
deriving DecidableEq

/-- `pb.IndexedAttestation`, restricted to the custody-bit validator index
lists the latest-message update loop ranges over. -/
structure IndexedAttestation where
  custodyBit0Indices : List Nat
  custodyBit1Indices : List Nat
deriving DecidableEq

/-- `pb.Attestation` in the indexed presentation of the spec's data model:
the attestation data plus the attestation's custody-bit-0/1 validator index
lists.  The source's `get_indexed_attestation` conversion is an unimplemented
TODO stubbed as the empty `pb.IndexedAttestation{}`, so the code never reads
these lists. -/
structure Attestation where
  data : AttestationData
  custodyBit0Indices : List Nat
  custodyBit1Indices : List Nat
deriving DecidableEq

/-- The externals of `Store.OnAttestation`, outside the analysed sources:
`state.ProcessSlots`, `helpers.AttestationDataSlot`, and
`blocks.VerifyIndexedAttestation` (with signature verification on; `true` =
accepted). -/
structure AttEnv where
  processSlots : BeaconState → Nat → Except Unit BeaconState
  attestationDataSlot : BeaconState → AttestationData → Except Unit Nat
  verifyIndexedAttestation : IndexedAttestation → Bool

/-- `Store.OnAttestation` (`fork_choice.go` 690-765): require the target
block known; load the base state at the target epoch's start slot; reject
attestations from future epochs; on first encounter advance the base state by
`state.ProcessSlots` and store it under the target checkpoint; compute the
attestation slot and reject until it is past; build the indexed attestation —
the source's `get_indexed_attestation` is an unimplemented TODO stubbed as
the EMPTY `pb.IndexedAttestation{}` — verify it, and run the latest-message
update loop over the stub's (empty) custody-bit indices, so the attestation's
own index lists are never consulted. -/
def Store.OnAttestation (s : Store) (env : AttEnv) (a : Attestation) :
    Except String Store :=
  let tgt := a.data.target
  if !(s.db.hasBlock tgt.root) then .error "target root does not exist in db"
  else
    let tgtSlot := startSlot tgt.epoch
    match s.db.historicalStateFromSlot tgtSlot tgt.root with
    | none => .error "pre state of slot does not exist"
    | some baseState0 =>
      if s.time < baseState0.genesisTime + tgtSlot * secondsPerSlot then
        .error "could not process attestation from the future"
      else
        match (if s.db.hasCheckpoint tgt then Except.ok (baseState0, s.db)
          else
            match env.processSlots baseState0 tgtSlot with
            | .error _ => Except.error "could not process slots"
            | .ok bs => Except.ok (bs, s.db.saveCheckpointState tgt bs) :
          Except String (BeaconState × BeaconDB)) with
        | .error e => .error e
        | .ok (baseState, db1) =>
          match env.attestationDataSlot baseState a.data with
          | .error _ => .error "could not get attestation slot"
          | .ok aSlot =>
            if s.time < baseState.genesisTime + (aSlot + 1) * secondsPerSlot then
              .error "could not process attestation for fork choice"
            else
              let indexedAtt : IndexedAttestation :=
                { custodyBit0Indices := [], custodyBit1Indices := [] }
              if !(env.verifyIndexedAttestation indexedAtt) then
                .error "could not verify indexed attestation"
              else
                match Store.OnAttUpdateLatestMessages db1 tgt.epoch
                    a.data.beaconBlockRoot
                    (indexedAtt.custodyBit0Indices ++ indexedAtt.custodyBit1Indices) with
                | .error e => .error e
                | .ok db2 => .ok { s with db := db2 }

/-- Failure kind of `ChainService.AdvanceState`: the state transition proper
fails with `*BlockFailedProcessingErr`; every other failure (SSZ or store
I/O, not modelled) falls under `other`. -/
inductive AdvErr where
  | failedProcessing
  | other
deriving DecidableEq

/-- The externals of the block pipeline, outside the analysed sources:
`b.IsValidBlock` (clock, eth1-data and parent checks of `VerifyBlockValidity`
past the slot-0 check), `state.ExecuteStateTransition`, and the collaborators
of `CleanupBlockOperations` (operation-pool feed, attestation target handler,
pending-deposit removal; `none` embeds its failure). -/
structure Env where
  isValidBlock : BeaconState → BeaconBlock → Bool
  transition : BeaconState → BeaconBlock → Except Unit BeaconState
  cleanup : BeaconDB → BeaconBlock → Option BeaconDB

/-- Error outcomes of `ChainService.ReceiveBlock`, in pipeline order. -/
inductive RbErr where
  /-- "parent does not exist in DB". -/
  | unknownParent
  /-- "could not retrieve beacon state". -/
  | statePreload
  /-- `VerifyBlockValidity`: "cannot process a genesis block" (slot 0). -/
  | genesisReplay
  /-- `VerifyBlockValidity`: `b.IsValidBlock` rejected the block. -/
  | preValidity
  /-- `SaveAndBroadcastBlock` failed (a blacklisted save). -/
  | saveAndBroadcastFailed
  /-- `AdvanceState` failed with `*BlockFailedProcessingErr`. -/
  | blockFailedProcessing
  /-- `AdvanceState` failed with any other error. -/
  | transitionOther
  /-- "beacon state root is not equal to block state root". -/
  | stateRootMismatch
  /-- `CleanupBlockOperations` failed. -/
  | cleanupFailed
deriving DecidableEq

/-- `ChainService.AdvanceState` (`block_processing.go` 210-268): run the core
state transition (wrapping failure as `BlockFailedProcessingErr`), then save
the historical state keyed by the block's signing root.  The source saves
`beaconState` — the PRE-state — under that key.  Cache pruning on a new
finalized epoch touches only in-memory caches (not modelled apart from the
DB), and epoch-start housekeeping touches the validator-index and FFG
namespaces outside the modelled claims. -/
def ChainService.AdvanceState (env : Env) (db : BeaconDB) (beaconState : BeaconState)
    (block : BeaconBlock) : BeaconDB × Except AdvErr BeaconState :=
  match env.transition beaconState block with
  | .error _ => (db, .error .failedProcessing)
  | .ok newState =>
    let blockRoot := sszSigningRoot block
    let db1 := db.saveHistoricalState beaconState blockRoot
    (db1, .ok newState)

/-- `ChainService.VerifyBlockValidity` (`block_processing.go` 143-158): the
slot-0 genesis-replay rejection, then `b.IsValidBlock` (clock, parent,
eth1-data checks — external, supplied by the environment). -/
def ChainService.VerifyBlockValidity (env : Env) (beaconState : BeaconState)
    (block : BeaconBlock) : Except RbErr Unit :=
  if block.slot = 0 then .error .genesisReplay
  else if env.isValidBlock beaconState block = false then .error .preValidity
  else .ok ()

/-- `ChainService.ReceiveBlock` (`block_processing.go` 55-135): locate the
parent, load the pre-state, verify pre-validity (`VerifyBlockValidity`),
save and broadcast (`SaveAndBroadcastBlock`, 163-184: save the block, save
the attestation target, announce `(hash, slot)` to peers), apply
`AdvanceState` — on `*BlockFailedProcessingErr` mark the root evil and delete
the block — check the post-state root against `block.StateRoot`, and finally
run `CleanupBlockOperations`.  Returns the final store, the broadcasts
issued, and the result. -/
def ChainService.ReceiveBlock (env : Env) (db : BeaconDB) (block : BeaconBlock) :
    BeaconDB × List (Root × Nat) × Except RbErr BeaconState :=
  match db.block block.parentRoot with
  | none => (db, [], .error .unknownParent)
  | some parent =>
    match db.historicalStateFromSlot parent.slot block.parentRoot with
    | none => (db, [], .error .statePreload)
    | some beaconState =>
      let blockRoot := sszSigningRoot block
      match ChainService.VerifyBlockValidity env beaconState block with
      | .error e => (db, [], .error e)
      | .ok _ =>
        match db.saveBlock block with
        | .error _ => (db, [], .error .saveAndBroadcastFailed)
        | .ok db1 =>
          let db2 := db1.saveAttestationTarget ⟨block.slot, blockRoot, block.parentRoot⟩
          let broadcasts := [(blockRoot, block.slot)]
          match ChainService.AdvanceState env db2 beaconState block with
          | (db3, .error .failedProcessing) =>
            let db4 := db3.markEvilBlockHash blockRoot
            let db5 := db4.deleteBlock block
            (db5, broadcasts, .error .blockFailedProcessing)
          | (db3, .error .other) => (db3, broadcasts, .error .transitionOther)
          | (db3, .ok newState) =>
            if sszHashTreeRootState newState ≠ block.stateRoot then
              (db3, broadcasts, .error .stateRootMismatch)
            else
              match env.cleanup db3 block with
              | none => (db3, broadcasts, .error .cleanupFailed)
              | some db4 => (db4, broadcasts, .ok newState)

/-- `ChainService.UpdateCanonicalRoots` (`service.go` 1064-1069): write the
new head's root into the canonical-blocks map at the head's slot. -/
def ChainService.UpdateCanonicalRoots (canonicalBlocks : Nat → Option Root)
    (newHead : BeaconBlock) (newHeadRoot : Root) : Nat → Option Root :=
  fun slot => if slot = newHead.slot then some newHeadRoot else canonicalBlocks slot

/-- `ChainService.IsCanonical` (`service.go` 1071-1080): true exactly when the
canonical-blocks map has an entry at `slot` equal to `hash`. -/
def ChainService.IsCanonical (canonicalBlocks : Nat → Option Root) (slot : Nat)
    (hash : Root) : Bool :=
  match canonicalBlocks slot with
  | some canonicalHash => canonicalHash == hash
  | none => false

/-- Extract the success value of an `Except`, with a default. -/
def exceptGetD {ε α : Type} (e : Except ε α) (d : α) : α :=
  match e with
  | .ok a => a
  | .error _ => d

/-! ## Association-list lemmas -/

theorem alookup_upsert_self {α β : Type} [DecidableEq α] (k : α) (v : β) :
    ∀ l : List (α × β), alookup k (upsert k v l) = some v := by
  intro l
  induction l with
  | nil => simp [upsert, alookup]
  | cons p rest ih =>
    obtain ⟨k', v'⟩ := p
    by_cases h : k' = k
    · simp [upsert, alookup, h]
    · simp [upsert, alookup, h, ih]

theorem alookup_mem {α β : Type} [DecidableEq α] (k : α) (v : β) :
    ∀ l : List (α × β), alookup k l = some v → (k, v) ∈ l := by
  intro l
  induction l with
  | nil => intro h; simp [alookup] at h
  | cons p rest ih =>
    obtain ⟨k', v'⟩ := p
    intro h
    by_cases hk : k' = k
    · subst hk
      simp [alookup] at h
      subst h
      exact List.mem_cons_self _ _
    · simp [alookup, hk] at h
      exact List.mem_cons_of_mem _ (ih h)

/-! ## C8 — on_tick -/

/-- A fork-choice store used as the concrete input for the `OnTick` claims. -/
def c8Store : Store :=
  { time := 0, justifiedCheckpt := ⟨0, 0⟩, finalizedCheckpt := ⟨0, 0⟩
    db := ⟨[], [], [], [], [], [], []⟩ }

/-- C8 counterexample: `on_tick` overwrites the stored time unconditionally,
so across the call sequence `on_tick 5; on_tick 3` the stored time decreases
from 5 to 3, refuting "t never decreases over the sequence of updates". -/
theorem onTick_time_decreases_counterexample :
    ((c8Store.OnTick 5).OnTick 3).time < (c8Store.OnTick 5).time := by decide

/-- C8 (amended): after `on_tick(u)` the stored time equals `u`, and the
stored time is non-decreasing across a call provided the supplied time is at
least the previously stored one (as a wall clock is). -/
theorem onTick_sets_time (s : Store) (u : Nat) :
    (s.OnTick u).time = u ∧ (s.time ≤ u → s.time ≤ (s.OnTick u).time) :=
  ⟨rfl, fun h => h⟩

/-- C8 witness: `onTick_sets_time` at the concrete store and time 7. -/
theorem onTick_sets_time_witness :
    c8Store.time ≤ 7 ∧ (c8Store.OnTick 7).time = 7 ∧
      c8Store.time ≤ (c8Store.OnTick 7).time :=
  ⟨by decide, (onTick_sets_time c8Store 7).1, (onTick_sets_time c8Store 7).2 (by decide)⟩

/-! ## C10 — canonical roots -/

/-- A canonical-blocks map with one entry, for the C10 witness. -/
def c10Map : Nat → Option Root := fun slot => if slot = 2 then some 55 else none

/-- A head block at slot 4, for the C10 witness. -/
def c10Block : BeaconBlock :=
  { slot := 4, parentRoot := 0, stateRoot := 0, bodyTag := 0, sigTag := 0 }

/-- C10: `UpdateCanonicalRoots` maps the new head's slot to the new root and
leaves every other slot unchanged; afterwards `IsCanonical` holds at the new
head's slot and root, and `IsCanonical` is false (without error) at any slot
with no entry in the map. -/
theorem updateCanonicalRoots_frame (m : Nat → Option Root) (b : BeaconBlock) (r : Root) :
    ChainService.UpdateCanonicalRoots m b r b.slot = some r ∧
    (∀ s, s ≠ b.slot → ChainService.UpdateCanonicalRoots m b r s = m s) ∧
    ChainService.IsCanonical (ChainService.UpdateCanonicalRoots m b r) b.slot r = true ∧
    (∀ s h, ChainService.UpdateCanonicalRoots m b r s = none →
      ChainService.IsCanonical (ChainService.UpdateCanonicalRoots m b r) s h = false) := by
  refine ⟨?_, ?_, ?_, ?_⟩
  · simp [ChainService.UpdateCanonicalRoots]
  · intro s hs
    simp [ChainService.UpdateCanonicalRoots, hs]
  · simp [ChainService.UpdateCanonicalRoots, ChainService.IsCanonical]
  · intro s h hnone
    simp [ChainService.IsCanonical, hnone]

/-- C10 witness: `updateCanonicalRoots_frame` at the concrete map, block, and
root 77; slot 2 stays untouched and slot 9 (no entry) is not canonical. -/
theorem updateCanonicalRoots_frame_witness :
    ChainService.UpdateCanonicalRoots c10Map c10Block 77 c10Block.slot = some 77 ∧
    ChainService.UpdateCanonicalRoots c10Map c10Block 77 2 = c10Map 2 ∧
    ChainService.IsCanonical (ChainService.UpdateCanonicalRoots c10Map c10Block 77)
      c10Block.slot 77 = true ∧
    ChainService.IsCanonical (ChainService.UpdateCanonicalRoots c10Map c10Block 77)
      9 123 = false :=
  ⟨(updateCanonicalRoots_frame c10Map c10Block 77).1,
   (updateCanonicalRoots_frame c10Map c10Block 77).2.1 2 (by decide),
   (updateCanonicalRoots_frame c10Map c10Block 77).2.2.1,
   (updateCanonicalRoots_frame c10Map c10Block 77).2.2.2 9 123 (by decide)⟩

/-! ## C6, C7 — ancestor -/

/-- C6: `Ancestor` on a stored root with block `b` fails with a slot
underflow when `b.slot < slot`, returns `root` itself at `slot = b.slot`
(so `ancestor(r, slot_of r) = r`, and any `slot > b.slot` fails), and
otherwise equals the recursive call on `b.parentRoot`. -/
theorem ancestor_cases (db : BeaconDB) (root : Root) (slot fuel : Nat) (b : BeaconBlock)
    (hb : db.block root = some b) :
    (b.slot < slot → ancestorFuel db (fuel + 1) root slot = some (.error .slotUnderflow)) ∧
    ancestorFuel db (fuel + 1) root b.slot = some (.ok root) ∧
    (slot < b.slot → ancestorFuel db (fuel + 1) root slot =
      ancestorFuel db fuel b.parentRoot slot) := by
  refine ⟨fun h => ?_, ?_, fun h => ?_⟩
  · simp [ancestorFuel, hb, h]
  · simp [ancestorFuel, hb]
  · simp [ancestorFuel, hb, Nat.not_lt.mpr (Nat.le_of_lt h), Nat.ne_of_gt h]

/-- A three-block chain `30 ← 20 ← 10` (slots 2, 1, 0) for the ancestor
witnesses. -/
def ancDB : BeaconDB :=
  { blocks :=
      [(30, { slot := 2, parentRoot := 20, stateRoot := 0, bodyTag := 3, sigTag := 0 }),
       (20, { slot := 1, parentRoot := 10, stateRoot := 0, bodyTag := 2, sigTag := 0 }),
       (10, { slot := 0, parentRoot := 0, stateRoot := 0, bodyTag := 1, sigTag := 0 })]
    latestMessages := [], checkpointStates := [], histStates := []
    attTargets := [], states := [], evil := [] }

/-- The block stored at root 30 of `ancDB`. -/
def ancBlk30 : BeaconBlock := { slot := 2, parentRoot := 20, stateRoot := 0, bodyTag := 3, sigTag := 0 }

/-- C6 witness: `ancestor_cases` at root 30 of the concrete chain — slot 5
underflows, slot 2 returns the root itself, slot 1 steps to the parent. -/
theorem ancestor_cases_witness :
    ancBlk30.slot < 5 ∧
    ancestorFuel ancDB 4 30 5 = some (.error .slotUnderflow) ∧
    ancestorFuel ancDB 4 30 ancBlk30.slot = some (.ok 30) ∧
    (1 : Nat) < ancBlk30.slot ∧
    ancestorFuel ancDB 4 30 1 = ancestorFuel ancDB 3 ancBlk30.parentRoot 1 :=
  ⟨by decide,
   (ancestor_cases ancDB 30 5 3 ancBlk30 (by decide)).1 (by decide),
   (ancestor_cases ancDB 30 2 3 ancBlk30 (by decide)).2.1,
   by decide,
   (ancestor_cases ancDB 30 1 3 ancBlk30 (by decide)).2.2 (by decide)⟩

/-- A block's parent resolves in the store to a block of strictly smaller
slot. -/
def parentOk (db : BeaconDB) (b : BeaconBlock) : Bool :=
  match db.block b.parentRoot with
  | some p => p.slot < b.slot
  | none => false

/-- The C7 precondition: every stored non-genesis block (slot above 0) has a
stored parent of strictly smaller slot. -/
def parentSlotDecreasing (db : BeaconDB) : Prop :=
  ∀ rb ∈ db.blocks, 0 < rb.2.slot → parentOk db rb.2 = true

instance parentSlotDecreasingDec (db : BeaconDB) : Decidable (parentSlotDecreasing db) :=
  inferInstanceAs (Decidable (∀ rb ∈ db.blocks, 0 < rb.2.slot → parentOk db rb.2 = true))

/-- C7: under the parent-slot-decreasing invariant, `Ancestor` terminates on
every stored root: with any fuel exceeding the start block's slot the walk
never exhausts its fuel (each parent step strictly decreases the slot). -/
theorem ancestor_terminates (db : BeaconDB) (hinv : parentSlotDecreasing db) :
    ∀ fuel root slot b, db.block root = some b → b.slot < fuel →
      ancestorFuel db fuel root slot ≠ none := by
  intro fuel
  induction fuel with
  | zero => intro root slot b _ hlt; omega
  | succ f ih =>
    intro root slot b hb hlt
    simp only [ancestorFuel, hb]
    by_cases h1 : b.slot < slot
    · simp [h1]
    · by_cases h2 : b.slot = slot
      · simp [h1, h2]
      · simp only [if_neg h1, if_neg h2]
        have hpos : 0 < b.slot := by omega
        have hmem : (root, b) ∈ db.blocks := alookup_mem root b db.blocks hb
        have hpar := hinv (root, b) hmem hpos
        unfold parentOk at hpar
        cases hp : db.block b.parentRoot with
        | none => rw [hp] at hpar; simp at hpar
        | some p =>
          rw [hp] at hpar
          simp only [decide_eq_true_eq] at hpar
          exact ih b.parentRoot slot p hp (by omega)

/-- C7 witness: the concrete chain satisfies the invariant and `Ancestor`
from root 30 with fuel 4 does not exhaust its fuel. -/
theorem ancestor_terminates_witness :
    parentSlotDecreasing ancDB ∧ ancDB.block 30 = some ancBlk30 ∧
    ancBlk30.slot < 4 ∧ ancestorFuel ancDB 4 30 0 ≠ none :=
  ⟨by decide, by decide, by decide,
   ancestor_terminates ancDB (by decide) 4 30 0 ancBlk30 (by decide) (by decide)⟩

/-! ## C1 — on_attestation latest-message update -/

/-- The target block of the C1 scenario. -/
def c1TargetBlk : BeaconBlock :=
  { slot := 0, parentRoot := 0, stateRoot := 0, bodyTag := 5, sigTag := 0 }

/-- The base state of the C1 scenario (at the target epoch's start slot). -/
def c1Base : BeaconState :=
  { genesisTime := 0, slot := 192, currentJustifiedCheckpoint := ⟨0, 0⟩
    finalizedCheckpoint := ⟨0, 0⟩, validators := [], restTag := 0 }

/-- The C1 attestation: target `{epoch 3, root of the target block}`, beacon
block root 77, validator 0 listed in its custody-bit-0 indices. -/
def c1Att : Attestation :=
  { data := { beaconBlockRoot := 77, target := ⟨3, sszSigningRoot c1TargetBlk⟩
              restTag := 0 }
    custodyBit0Indices := [0], custodyBit1Indices := [] }

/-- The C1 store: target block stored, base and checkpoint states seeded,
wall time well past the attestation slot, and NO latest message stored for
validator 0. -/
def c1Store : Store :=
  { time := 10000, justifiedCheckpt := ⟨0, 0⟩, finalizedCheckpt := ⟨0, 0⟩
    db := { blocks := [(sszSigningRoot c1TargetBlk, c1TargetBlk)]
            latestMessages := []
            checkpointStates := [(⟨3, sszSigningRoot c1TargetBlk⟩, c1Base)]
            histStates := [((startSlot 3, sszSigningRoot c1TargetBlk), c1Base)]
            attTargets := [], states := [], evil := [] } }

/-- The C1 externals: the attestation's slot is 100 and indexed-attestation
verification accepts. -/
def c1AttEnv : AttEnv :=
  { processSlots := fun bs _ => .ok bs
    attestationDataSlot := fun _ _ => .ok 100
    verifyIndexedAttestation := fun _ => true }

/-- The store `OnAttestation` produces on the C1 scenario. -/
def c1StoreAfter : Store :=
  exceptGetD (Store.OnAttestation c1Store c1AttEnv c1Att) c1Store

/-- C1 (code bug): validator 0 is listed in the attestation's custody-bit-0
indices and has NO stored latest message, so the claim (and the source's own
pseudocode) requires `OnAttestation` to write
`latest_message[0] = {epoch 3, root 77}`; the source instead ranges the
update loop over the custody-bit indices of the stubbed empty
`pb.IndexedAttestation{}` (`get_indexed_attestation` is an unimplemented
TODO, fork_choice.go 742-743/749), so the call succeeds without writing ANY
latest message and the table stays empty.  (The write guard at line 755 is
also inverted — `HasLatestMessage(i) || tgt.Epoch > msg.Epoch`, presence
rather than absence — so even an implemented conversion would overwrite
higher-epoch messages, against the claimed monotonicity.) -/
theorem onAttestation_stub_skips_latest_message_update_code_bug :
    c1Att.custodyBit0Indices = [0] ∧
    c1Store.db.latestMessage 0 = none ∧
    Store.OnAttestation c1Store c1AttEnv c1Att = .ok c1StoreAfter ∧
    c1StoreAfter.db.latestMessage 0 = none ∧
    c1StoreAfter.db.latestMessages = [] :=
  ⟨rfl, rfl, rfl, rfl, rfl⟩

/-! ## C2 — head -/

/-- A store with no blocks at all, the C2 failing input: the claim's child
set at the justified root is empty, so `head()` should return the justified
root 42. -/
def c2Store : Store :=
  { time := 0, justifiedCheckpt := ⟨0, 42⟩, finalizedCheckpt := ⟨0, 42⟩
    db := ⟨[], [], [], [], [], [], []⟩ }

/-- C2 (code bug): on a store with no blocks, every child set of the claimed
descent is empty and `head()` must return `justified_checkpoint.root` (42);
the source instead reads the placeholder lists `children := [][]byte{{}}` and
`roots := [][]byte{{}}`, looks the stub zero root up in the block store, and
fails.  (With the stub element, `children` is never empty, so the
return-`head` branch of the source is unreachable; the inner
`head := children[0]` also shadows the loop variable, and the balance
comparison has no lexicographic tie-break.) -/
theorem head_placeholder_roots_code_bug :
    c2Store.db.blocks = [] ∧
    Store.Head c2Store 5 = .error "could not get block" :=
  ⟨rfl, rfl⟩

/-! ## C3 — on_block checkpoint adoption -/

/-- The genesis block of the C3 scenario. -/
def c3Genesis : BeaconBlock :=
  { slot := 0, parentRoot := 0, stateRoot := 0, bodyTag := 0, sigTag := 0 }

/-- The pre-state of the C3 scenario. -/
def c3Pre : BeaconState :=
  { genesisTime := 0, slot := 1, currentJustifiedCheckpoint := ⟨0, 0⟩
    finalizedCheckpoint := ⟨0, 0⟩, validators := [], restTag := 0 }

/-- The post-state of the C3 scenario: its current justified checkpoint is
`{epoch 1, root 99}` and its finalized checkpoint `{epoch 1, root 88}`. -/
def c3Post : BeaconState :=
  { genesisTime := 0, slot := 64, currentJustifiedCheckpoint := ⟨1, 99⟩
    finalizedCheckpoint := ⟨1, 88⟩, validators := [], restTag := 0 }

/-- The incoming block of the C3 scenario, child of the genesis block. -/
def c3Block : BeaconBlock :=
  { slot := 1, parentRoot := sszSigningRoot c3Genesis, stateRoot := 0
    bodyTag := 0, sigTag := 0 }

/-- The fork-choice store of the C3 scenario: genesis stored and finalized,
justified checkpoint `{epoch 0, root 5}`. -/
def c3Store : Store :=
  { time := 100, justifiedCheckpt := ⟨0, 5⟩
    finalizedCheckpt := ⟨0, sszSigningRoot c3Genesis⟩
    db := { blocks := [(sszSigningRoot c3Genesis, c3Genesis)]
            latestMessages := [], checkpointStates := []
            histStates := [((1, sszSigningRoot c3Genesis), c3Pre)]
            attTargets := [], states := [], evil := [] } }

/-- The state transition of the C3 scenario: always yields `c3Post`. -/
def c3Transition : BeaconState → BeaconBlock → Except Unit BeaconState :=
  fun _ _ => .ok c3Post

/-- The store `OnBlock` produces on the C3 scenario. -/
def c3StoreAfter : Store :=
  exceptGetD (Store.OnBlock c3Store c3Transition 3 c3Block) c3Store

/-- C3 (code bug): on a block whose post-state justifies `{epoch 1, root 99}`
and finalizes `{epoch 1, root 88}`, `OnBlock` succeeds but adopts only the
epochs: the stored justified checkpoint becomes `{epoch 1, root 5}` (the old
root) and the finalized checkpoint `{epoch 1, root of genesis}` — the source
assigns `s.justifiedCheckpt.Epoch = postState.CurrentJustifiedCheckpoint.Epoch`
(and likewise for finalized), dropping the roots the claim (and the source's
own pseudocode `store.justified_checkpoint = state.current_justified_checkpoint`)
requires. -/
theorem onBlock_adopts_epoch_only_code_bug :
    Store.OnBlock c3Store c3Transition 3 c3Block = .ok c3StoreAfter ∧
    c3Post.currentJustifiedCheckpoint = ⟨1, 99⟩ ∧
    c3Post.finalizedCheckpoint = ⟨1, 88⟩ ∧
    c3StoreAfter.justifiedCheckpt = ⟨1, 5⟩ ∧
    c3StoreAfter.finalizedCheckpt = ⟨1, sszSigningRoot c3Genesis⟩ ∧
    c3StoreAfter.justifiedCheckpt.root ≠ c3Post.currentJustifiedCheckpoint.root ∧
    c3StoreAfter.finalizedCheckpt.root ≠ c3Post.finalizedCheckpoint.root :=
  ⟨rfl, rfl, rfl, by decide, by decide, by decide, by decide⟩

/-! ## C5 — genesis store -/

/-- The genesis state of the C5 scenario (`genesis_time = 7`). -/
def c5State : BeaconState :=
  { genesisTime := 7, slot := 0, currentJustifiedCheckpoint := ⟨0, 0⟩
    finalizedCheckpoint := ⟨0, 0⟩, validators := [], restTag := 0 }

/-- The genesis block `GensisStore` constructs from `c5State`
(`pb.BeaconBlock{StateRoot: stateRoot[:]}`). -/
def c5GenesisBlk : BeaconBlock :=
  { slot := 0, parentRoot := 0, stateRoot := sszHashTreeRootState c5State
    bodyTag := 0, sigTag := 0 }

/-- An empty fork-choice store, the C5 input. -/
def c5Store : Store :=
  { time := 0, justifiedCheckpt := ⟨0, 0⟩, finalizedCheckpt := ⟨0, 0⟩
    db := ⟨[], [], [], [], [], [], []⟩ }

/-- The store `GensisStore` produces on the C5 scenario. -/
def c5StoreAfter : Store :=
  exceptGetD (Store.GensisStore c5Store c5State) c5Store

/-- C5 (code bug): `GensisStore` does seed `time` from `genesis_time`, build
the genesis block from `hash_tree_root(state)`, and persist block, state, and
both checkpoint states — but it sets both checkpoints to
`{epoch 0, root := ssz.HashTreeRoot(genesisBlk)}`, not the block's signing
root prescribed by the claim and the source's own pseudocode
(`root = signing_root(genesis_block)`): the checkpoint root differs from the
signing root under which `save_block` stores the genesis block, so looking
the checkpoint root up in the block store finds nothing. -/
theorem gensisStore_checkpoint_root_code_bug :
    Store.GensisStore c5Store c5State = .ok c5StoreAfter ∧
    c5StoreAfter.time = 7 ∧
    c5StoreAfter.justifiedCheckpt = ⟨0, sszHashTreeRootBlock c5GenesisBlk⟩ ∧
    c5StoreAfter.finalizedCheckpt = ⟨0, sszHashTreeRootBlock c5GenesisBlk⟩ ∧
    sszHashTreeRootBlock c5GenesisBlk ≠ sszSigningRoot c5GenesisBlk ∧
    c5StoreAfter.db.block (sszSigningRoot c5GenesisBlk) = some c5GenesisBlk ∧
    c5StoreAfter.db.block c5StoreAfter.justifiedCheckpt.root = none ∧
    c5StoreAfter.db.checkpointState c5StoreAfter.justifiedCheckpt = some c5State ∧
    c5StoreAfter.db.checkpointState c5StoreAfter.finalizedCheckpt = some c5State :=
  ⟨rfl, rfl, rfl, rfl, by decide, by decide, by decide, by decide, by decide⟩

/-! ## C4 — state-root mismatch handling -/

/-- C4 (amended): when every stage up to and including the state transition
succeeds but the post-state's tree-hash root differs from
`block.state_root`, `ReceiveBlock` fails with the state-root-mismatch error
and — unlike the `BlockFailedProcessing` path — does NOT evil-list the
block's root and does NOT delete the block: the block stays saved and the
evil deny-list is unchanged. -/
theorem receiveBlock_stateRootMismatch_not_fatal (env : Env) (db : BeaconDB)
    (block parentBlk : BeaconBlock) (pre post : BeaconState)
    (hp : db.block block.parentRoot = some parentBlk)
    (hs : db.historicalStateFromSlot parentBlk.slot block.parentRoot = some pre)
    (h0 : block.slot ≠ 0)
    (hv : env.isValidBlock pre block = true)
    (he : db.evil.contains (sszSigningRoot block) = false)
    (ht : env.transition pre block = .ok post)
    (hm : sszHashTreeRootState post ≠ block.stateRoot) :
    (ChainService.ReceiveBlock env db block).2.2 = .error .stateRootMismatch ∧
    (ChainService.ReceiveBlock env db block).1.block (sszSigningRoot block) = some block ∧
    (ChainService.ReceiveBlock env db block).1.evil = db.evil := by
  have hp' : alookup block.parentRoot db.blocks = some parentBlk := hp
  have he' : sszSigningRoot block ∉ db.evil := by simpa using he
  refine ⟨?_, ?_, ?_⟩ <;>
    simp [ChainService.ReceiveBlock, ChainService.VerifyBlockValidity,
      ChainService.AdvanceState, BeaconDB.saveBlock, BeaconDB.saveAttestationTarget,
      BeaconDB.saveHistoricalState, BeaconDB.block, hp', hs, h0, hv, he', ht, hm,
      alookup_upsert_self]

/-- The parent (genesis) block of the C4 scenario. -/
def c4Genesis : BeaconBlock :=
  { slot := 0, parentRoot := 0, stateRoot := 0, bodyTag := 0, sigTag := 0 }

/-- The pre-state of the C4 scenario. -/
def c4Pre : BeaconState :=
  { genesisTime := 0, slot := 1, currentJustifiedCheckpoint := ⟨0, 0⟩
    finalizedCheckpoint := ⟨0, 0⟩, validators := [], restTag := 0 }

/-- The post-state of the C4 scenario; its tree-hash root is nonzero, hence
differs from the block's `state_root` of 0. -/
def c4Post : BeaconState :=
  { genesisTime := 0, slot := 2, currentJustifiedCheckpoint := ⟨0, 0⟩
    finalizedCheckpoint := ⟨0, 0⟩, validators := [], restTag := 0 }

/-- The C4 block: child of the genesis block, with a `state_root` (0) that
does not match the post-state hash. -/
def c4Block : BeaconBlock :=
  { slot := 1, parentRoot := sszSigningRoot c4Genesis, stateRoot := 0
    bodyTag := 0, sigTag := 0 }

/-- The C4 store: genesis stored, its pre-state loadable. -/
def c4db : BeaconDB :=
  { blocks := [(sszSigningRoot c4Genesis, c4Genesis)]
    latestMessages := [], checkpointStates := []
    histStates := [((0, sszSigningRoot c4Genesis), c4Pre)]
    attTargets := [], states := [], evil := [] }

/-- The C4 environment: validity passes, the transition yields `c4Post`,
cleanup succeeds. -/
def c4Env : Env :=
  { isValidBlock := fun _ _ => true
    transition := fun _ _ => .ok c4Post
    cleanup := fun db _ => some db }

/-- C4 counterexample: on the concrete mismatch scenario, `ReceiveBlock`
fails with the state-root-mismatch error, yet the evil deny-list stays empty
and the block is still stored — refuting the claim that the root is
evil-listed and the block deleted as for `BlockFailedProcessing`. -/
theorem receiveBlock_stateRootMismatch_counterexample :
    (ChainService.ReceiveBlock c4Env c4db c4Block).2.2 = .error .stateRootMismatch ∧
    (ChainService.ReceiveBlock c4Env c4db c4Block).1.evil = [] ∧
    (ChainService.ReceiveBlock c4Env c4db c4Block).1.block (sszSigningRoot c4Block) =
      some c4Block :=
  ⟨rfl, rfl, rfl⟩

/-- C4 witness: `receiveBlock_stateRootMismatch_not_fatal` at the concrete
mismatch scenario. -/
theorem receiveBlock_stateRootMismatch_not_fatal_witness :
    sszHashTreeRootState c4Post ≠ c4Block.stateRoot ∧
    (ChainService.ReceiveBlock c4Env c4db c4Block).2.2 = .error .stateRootMismatch ∧
    (ChainService.ReceiveBlock c4Env c4db c4Block).1.block (sszSigningRoot c4Block) =
      some c4Block ∧
    (ChainService.ReceiveBlock c4Env c4db c4Block).1.evil = c4db.evil := by
  have h := receiveBlock_stateRootMismatch_not_fatal c4Env c4db c4Block c4Genesis
    c4Pre c4Post rfl rfl (by decide) rfl rfl rfl (by decide)
  exact ⟨by decide, h.1, h.2.1, h.2.2⟩

/-! ## C9 — genesis replay rejection -/

/-- C9: a block with slot 0 is rejected by the pre-validity check with the
genesis-replay error; when the parent and pre-state stages pass,
`ReceiveBlock` returns that error with the store unchanged and nothing
broadcast (the block is neither saved nor announced). -/
theorem receiveBlock_slot0_genesisReplay (env : Env) (db : BeaconDB)
    (block parentBlk : BeaconBlock) (pre : BeaconState)
    (hp : db.block block.parentRoot = some parentBlk)
    (hs : db.historicalStateFromSlot parentBlk.slot block.parentRoot = some pre)
    (h0 : block.slot = 0) :
    ChainService.VerifyBlockValidity env pre block = .error .genesisReplay ∧
    ChainService.ReceiveBlock env db block = (db, [], .error .genesisReplay) := by
  constructor
  · simp [ChainService.VerifyBlockValidity, h0]
  · simp [ChainService.ReceiveBlock, ChainService.VerifyBlockValidity, hp, hs, h0]

/-- The parent (genesis) block of the C9 scenario. -/
def c9Genesis : BeaconBlock :=
  { slot := 0, parentRoot := 0, stateRoot := 0, bodyTag := 0, sigTag := 0 }

/-- The pre-state of the C9 scenario. -/
def c9Pre : BeaconState :=
  { genesisTime := 0, slot := 0, currentJustifiedCheckpoint := ⟨0, 0⟩
    finalizedCheckpoint := ⟨0, 0⟩, validators := [], restTag := 0 }

/-- The C9 block: slot 0 (a genesis replay), child of the stored genesis. -/
def c9Block : BeaconBlock :=
  { slot := 0, parentRoot := sszSigningRoot c9Genesis, stateRoot := 0
    bodyTag := 1, sigTag := 0 }

/-- The C9 store: genesis stored, its pre-state loadable. -/
def c9db : BeaconDB :=
  { blocks := [(sszSigningRoot c9Genesis, c9Genesis)]
    latestMessages := [], checkpointStates := []
    histStates := [((0, sszSigningRoot c9Genesis), c9Pre)]
    attTargets := [], states := [], evil := [] }

/-- The C9 environment (its fields are never consulted before rejection). -/
def c9Env : Env :=
  { isValidBlock := fun _ _ => true
    transition := fun _ _ => .error ()
    cleanup := fun db _ => some db }

/-- C9 witness: `receiveBlock_slot0_genesisReplay` at the concrete slot-0
block. -/
theorem receiveBlock_slot0_genesisReplay_witness :
    c9Block.slot = 0 ∧
    ChainService.VerifyBlockValidity c9Env c9Pre c9Block = .error .genesisReplay ∧
    ChainService.ReceiveBlock c9Env c9db c9Block = (c9db, [], .error .genesisReplay) := by
  have h := receiveBlock_slot0_genesisReplay c9Env c9db c9Block c9Genesis c9Pre rfl rfl rfl
  exact ⟨rfl, h.1, h.2⟩

end Prysm
